import Mathlib

/-!
Shallow embedding of `cs290.py` and `scalable_admin/command_line.py`
(scalableinternetservices/cs290_utils), together with theorems settling the
specification claims about them.

Python dictionaries are modelled as association lists that keep insertion
order (assigning to an existing key updates it in place; assigning to a new
key appends), JSON-serialisable Python values as the inductive `Json`,
strings handled character-wise as `List Char`, and the effect of AWS / GitHub
SDK calls as explicit call traces parameterised by response oracles.
-/

namespace CS290

/-- JSON-serialisable Python values, as used for the IAM policy documents and
CloudFormation templates in `cs290.py`. Objects are insertion-ordered
association lists, mirroring Python dict semantics. -/
inductive Json where
  | str : String → Json
  | nat : Nat → Json
  | bool : Bool → Json
  | arr : List Json → Json
  | obj : List (String × Json) → Json

/-- Python dict assignment `d[k] = v`: update the first binding of `k` in
place, or append a new binding at the end. -/
def setKey (d : List (String × Json)) (k : String) (v : Json) :
    List (String × Json) :=
  match d with
  | [] => [(k, v)]
  | (k', v') :: rest =>
      if k' = k then (k, v) :: rest else (k', v') :: setKey rest k v

/-- Python dict lookup `d[k]` (as an `Option`; `none` is a `KeyError`). -/
def getKey (d : List (String × Json)) (k : String) : Option Json :=
  match d with
  | [] => none
  | (k', v') :: rest => if k' = k then some v' else getKey rest k

/-- Lookup of a key expected to hold an object (`d[k]` where `d[k]` is a
dict); returns the object's bindings, `[]` when absent or not an object. -/
def getObj (d : List (String × Json)) (k : String) : List (String × Json) :=
  match getKey d k with
  | some (Json.obj o) => o
  | _ => []

/-- The keys of a dict, in insertion order (Python 2 `dict` iteration order
is unspecified; we use source-listing order throughout, which only matters
for values no claim depends on). -/
def keysOf (d : List (String × Json)) : List String := d.map Prod.fst

/-- Python truthiness of the values that reach `if allowed:`-style tests in
`CFTemplate.add_parameter`. -/
def jtruthy : Json → Bool
  | Json.str s => s ≠ ""
  | Json.nat n => n ≠ 0
  | Json.bool b => b
  | Json.arr l => !l.isEmpty
  | Json.obj l => !l.isEmpty

/-- `if v: param[key] = v` — the guarded single-key fragment used by
`CFTemplate.add_parameter` for each optional argument. -/
def addIf (key : String) (v : Option Json) : List (String × Json) :=
  match v with
  | some j => if jtruthy j then [(key, j)] else []
  | none => []

/-! ## CFTemplate (`cs290.py` lines 238–353) -/

namespace CFTemplate

def DEFAULT_AMI : String := "ami-55a7ea65"

def INSTANCES : List String :=
  ["t1.micro", "m1.small", "m1.medium", "m1.large", "m1.xlarge",
   "m2.xlarge", "m2.2xlarge", "m2.4xlarge", "m3.xlarge", "m3.2xlarge"]

/-- `CFTemplate.TEAM_MAP`, a dict mapping team names to `{'sg': ...}`. -/
def TEAM_MAP : List (String × Json) :=
  [("BaconWindshield", Json.obj [("sg", Json.str "sg-ab3052ce")]),
   ("Compete", Json.obj [("sg", Json.str "sg-d33052b6")]),
   ("Gradr", Json.obj [("sg", Json.str "sg-b53052d0")]),
   ("LaPlaya", Json.obj [("sg", Json.str "sg-dd3052b8")]),
   ("Lab-App", Json.obj [("sg", Json.str "sg-763c5213")]),
   ("Motley-Crew", Json.obj [("sg", Json.str "sg-fa97fa9f")]),
   ("Suppr", Json.obj [("sg", Json.str "sg-b13052d4")]),
   ("Team-Hytta", Json.obj [("sg", Json.str "sg-1297fa77")]),
   ("Upvid", Json.obj [("sg", Json.str "sg-bd3052d8")]),
   ("Xup", Json.obj [("sg", Json.str "sg-a03052c5")]),
   ("labapp", Json.obj [("sg", Json.str "sg-661f7203")]),
   ("picShare", Json.obj [("sg", Json.str "sg-db3052be")])]

/-- `CFTemplate.TEMPLATE`: the shared class-level pristine template. -/
def TEMPLATE : List (String × Json) :=
  [("AWSTemplateFormatVersion", Json.str "2010-09-09"),
   ("Outputs", Json.obj []),
   ("Parameters", Json.obj []),
   ("Resources", Json.obj [])]

/-- `CFTemplate.get_att` (the `attribute` argument is renamed `attrName`
because `attribute` is reserved in Lean). -/
def get_att (resource attrName : String) : Json :=
  Json.obj [("Fn:GetAtt", Json.arr [Json.str resource, Json.str attrName])]

/-- `CFTemplate.join` (variadic `*args` passed as a list). -/
def join (separator : String) (args : List Json) : Json :=
  Json.obj [("Fn:Join", Json.arr [Json.str separator, Json.arr args])]

/-- The state of a `CFTemplate` instance after `__init__`: the four
constructor arguments plus `self.template`. -/
structure State where
  ami : String
  memcached : Bool
  multi : Bool
  passenger : Bool
  template : List (String × Json)

/-- `CFTemplate.__init__`: `self.ami = app_ami if app_ami else DEFAULT_AMI`
(empty string is falsy) and `self.template = copy.deepcopy(self.TEMPLATE)`
(so the instance starts from the pristine template value). -/
def init (app_ami : Option String) (memcached multi passenger : Bool) :
    State :=
  { ami := match app_ami with
      | some a => if a = "" then DEFAULT_AMI else a
      | none => DEFAULT_AMI
    memcached := memcached
    multi := multi
    passenger := passenger
    template := TEMPLATE }

/-- `CFTemplate.add_output` as a transformation of the template value:
`self.template['Outputs'][name] = {'Description': ..., 'Value': ...}`. -/
def addOutputT (name description : String) (value : Json)
    (t : List (String × Json)) : List (String × Json) :=
  setKey t "Outputs"
    (Json.obj (setKey (getObj t "Outputs") name
      (Json.obj [("Description", Json.str description), ("Value", value)])))

/-- `CFTemplate.add_parameter` as a transformation of the template value.
The parameter dict is built by successive guarded assignments, hence the
fixed key order Type, AllowedValues, Default, Description,
ConstraintDescription, MaxValue, MinValue. -/
def addParameterT (name : String) (ptype : String := "String")
    (allowed : Option Json := none) (default : Option Json := none)
    (description : Option Json := none) (error_msg : Option Json := none)
    (maxv : Option Json := none) (minv : Option Json := none)
    (t : List (String × Json)) : List (String × Json) :=
  setKey t "Parameters"
    (Json.obj (setKey (getObj t "Parameters") name
      (Json.obj
        ([("Type", Json.str ptype)] ++ addIf "AllowedValues" allowed ++
         addIf "Default" default ++ addIf "Description" description ++
         addIf "ConstraintDescription" error_msg ++ addIf "MaxValue" maxv ++
         addIf "MinValue" minv))))

/-- `CFTemplate.add_output` on an instance. -/
def add_output (s : State) (name description : String) (value : Json) :
    State :=
  { s with template := addOutputT name description value s.template }

/-- `CFTemplate.add_parameter` on an instance. -/
def add_parameter (s : State) (name : String) (ptype : String := "String")
    (allowed : Option Json := none) (default : Option Json := none)
    (description : Option Json := none) (error_msg : Option Json := none)
    (maxv : Option Json := none) (minv : Option Json := none) : State :=
  let t := addParameterT name ptype allowed default description error_msg
    maxv minv s.template
  { s with template := t }

/-- The template mutations performed by `CFTemplate.generate` (lines
316–349), as a function of `self.multi` — the only instance flag the method
reads. The trailing `json.dumps`/`verify_template` serialise and check the
resulting value without changing it. -/
def generateT (multi : Bool) (t : List (String × Json)) :
    List (String × Json) :=
  let t := addParameterT "AppInstanceType" "String"
    (some (Json.arr (INSTANCES.map Json.str)))
    (some (Json.str "t1.micro"))
    (some (Json.str "The AppServer instance type."))
    (some (Json.str "Must be a valid t1, m1, or m2 EC2 instance type."))
    none none t
  let t := addParameterT "Branch" "String" none
    (some (Json.str "master"))
    (some (Json.str "The git branch to deploy.")) none none none t
  let t := addParameterT "TeamName" "String"
    (some (Json.arr ((keysOf TEAM_MAP).map Json.str))) none
    (some (Json.str "Your CS290 team name."))
    (some (Json.str
      "Must exactly match your team name as shown in your Github URL."))
    none none t
  let (url, t) :=
    if multi then
      let t := addParameterT "AppInstances" "Number" none
        (some (Json.nat 2))
        (some (Json.str "The number of AppServer instances to launch."))
        none (some (Json.nat 8)) (some (Json.nat 1)) t
      let t := addParameterT "DBInstanceType" "String"
        (some (Json.arr (INSTANCES.map (fun x => Json.str ("db." ++ x)))))
        (some (Json.str "db.t1.micro"))
        (some (Json.str "The Database instance type."))
        (some (Json.str
          "Must be a valid db.t1, db.m1, or db.m2 EC2 instance type."))
        none none t
      let t := setKey t "Mappings" (Json.obj [("Teams", Json.obj TEAM_MAP)])
      (get_att "LoadBalancer" "DNSName", t)
    else
      (get_att "AppServer" "PublicDnsName", t)
  addOutputT "URL" "The URL to the rails application."
    (join "" [Json.str "http://", url]) t

/-- `CFTemplate.generate` on an instance. -/
def generate (s : State) : State :=
  { s with template := generateT s.multi s.template }

end CFTemplate

/-! ## AWS façade (`cs290.py` lines 28–235) -/

namespace AWS

/-- The `(http_response, response_data)` pair returned by
`serv[0].get_operation(operation).call(serv[1], **kwargs)`. -/
structure Response where
  status_code : Nat
  data : Json

/-- The output lines `AWS.op` can print. -/
inductive OutLine where
  /-- `print('Success: {0} {1}'.format(operation, kwargs))` -/
  | success (operation kwargs : String)
  /-- `print(data['Error']['Message'])`; `none` marks the `KeyError` a
  response without that field would raise. -/
  | errMsg (msg : Option Json)

/-- `data['Error']['Message']`. -/
def errorMessage (data : Json) : Option Json :=
  match data with
  | Json.obj d =>
      match getKey d "Error" with
      | some (Json.obj e) => getKey e "Message"
      | _ => none
  | _ => none

/-- The value `AWS.op` returns: the response data on success, Python
`False` on failure. -/
inductive OpRet where
  | data (j : Json)
  | failure

/-- `AWS.op`: issue the SDK call once and inspect the status code. The
first component is the trace of SDK invocations made (the single
`get_operation(operation).call(...)`), the second the printed lines, the
third the returned value. -/
def op (call : String → String → Response) (operation : String)
    (kwargs : String) (debug_output : Bool := true) :
    List String × List OutLine × OpRet :=
  let resp := call operation kwargs
  if resp.status_code = 200 then
    ([operation],
     (if debug_output then [OutLine.success operation kwargs] else []),
     OpRet.data resp.data)
  else
    ([operation], [OutLine.errMsg (errorMessage resp.data)], OpRet.failure)

/-- The API calls issued by `AWS.configure(team)`, in source order. Only
the result of the `CreateUser` call influences which further calls are
made (the `CreateAccessKey`/`CreateKeyPair` results only gate printing and
the keypair file write); every other `op` result is discarded, so a failed
call never stops the sequence. -/
def configureCalls (createUserOk : Bool) : List String :=
  ["CreateGroup", "PutGroupPolicy", "CreateUser"] ++
  (if createUserOk then
    ["CreateLoginProfile", "CreateAccessKey", "CreateKeyPair"]
   else []) ++
  ["AddUserToGroup", "CreateSecurityGroup"] ++
  -- one AuthorizeSecurityGroupIngress per port in [22, 80, 443]
  ["AuthorizeSecurityGroupIngress", "AuthorizeSecurityGroupIngress",
   "AuthorizeSecurityGroupIngress"] ++
  -- intra-security-group rule
  ["AuthorizeSecurityGroupIngress"] ++
  ["PutUserPolicy"]

/-- `AWS.configure`: the call trace and the return value (the method ends
with `return 0` unconditionally). -/
def configure (createUserOk : Bool) : List String × Nat :=
  (configureCalls createUserOk, 0)

/-- A `StackSummary` entry of the `ListStacks` response, with times in
seconds. -/
structure StackSummary where
  name : String
  status : String
  creationTime : Int

/-- `AWS.cleanup`: one `ListStacks` call (with `debug_output=False`), then
one `DeleteStack` per stack that is not `DELETE_COMPLETE` and is more than
8 hours old (`now - stack['CreationTime'] > timedelta(hours=8)`). -/
def cleanupCalls (now : Int) (stackList : List StackSummary) : List String :=
  "ListStacks" ::
    (stackList.filter
      (fun s => s.status ≠ "DELETE_COMPLETE" ∧ now - s.creationTime > 8 * 3600)
    ).map (fun _ => "DeleteStack")

/-- `AWS.list_security_groups`: a single `DescribeSecurityGroups` call
(the result is pretty-printed). -/
def listSecurityGroupsCalls : List String := ["DescribeSecurityGroups"]

/-- `AWS.purge(team)`: the call trace, parameterised by the
`ListAccessKeys` outcome (`none` models the call failing, in which case
the `for keydata in resp['AccessKeyMetadata']` loop is skipped), and the
unconditional `return 0`. -/
def purgeCalls (listAccessKeys : Option (List String)) : List String :=
  ["DeleteLoginProfile", "DeleteUserPolicy", "ListAccessKeys"] ++
  (match listAccessKeys with
   | some keys => keys.map (fun _ => "DeleteAccessKey")
   | none => []) ++
  ["RemoveUserFromGroup", "DeleteUser", "DeleteKeyPair",
   "DeleteSecurityGroup"]

/-- `AWS.purge` returns 0 unconditionally. -/
def purge (listAccessKeys : Option (List String)) : List String × Nat :=
  (purgeCalls listAccessKeys, 0)

end AWS

/-! ## Command-line dispatchers (`scalable_admin/command_line.py`) -/

namespace CommandLine

/-- `cmd_aws`: run `AWS().configure(team)` for each team, returning the
first nonzero result, else 0. `configureResult` abstracts the per-team
return value of `AWS.configure`. -/
def cmd_aws (configureResult : String → Nat) : List String → Nat
  | [] => 0
  | team :: rest =>
      let retval := configureResult team
      if retval ≠ 0 then retval else cmd_aws configureResult rest

/-- The flag assignment built by `cmd_cftemplate_update_all` for loop index
`i`: `bit_pos = ['memcached', 'puma', 'multi']` and
`kwargs[argument] = bool(i & 2 ** bit)`. -/
def flagsOf (i : Nat) : Bool × Bool × Bool :=
  (i &&& 1 ≠ 0, i &&& 2 ≠ 0, i &&& 4 ≠ 0)

/-- The loop body of `cmd_cftemplate_update_all`: generate for each index
in turn, returning the first nonzero `generate_stack` result. -/
def update_all_loop (gen : Nat → Nat) : List Nat → Nat
  | [] => 0
  | i :: rest =>
      let retval := gen i
      if retval ≠ 0 then retval else update_all_loop gen rest

/-- The `generate_stack` result at loop index `i`:
`generateStack memcached puma multi` abstracts the result of
`CFTemplate(...).generate_stack(...)` and is applied to the flags decoded
from the bits of `i`. -/
def genAt (generateStack : Bool → Bool → Bool → Nat) (i : Nat) : Nat :=
  let flags := flagsOf i
  generateStack flags.1 flags.2.1 flags.2.2

/-- `cmd_cftemplate_update_all`: iterate `i` over `range(2 ** 3)`, taking
memcached from bit 0, puma from bit 1 and multi from bit 2 of `i`, and
return the first nonzero `generate_stack` result, else 0. -/
def cmd_cftemplate_update_all (generateStack : Bool → Bool → Bool → Nat) :
    Nat :=
  update_all_loop (genAt generateStack) (List.range 8)

end CommandLine

/-! ## GitHub flow (`cs290.py` lines 368–412) -/

namespace Github

/-- The GitHub organization state `configure_github_team` inspects: the
names of its teams, the names of its public repositories, and for each
repository the names of the teams it belongs to. Teams are identified by
name, matching the `iteam.name == team_name` lookup in the source. -/
structure OrgState where
  teams : List String
  publicRepos : List String
  repoTeams : String → List String

/-- The GitHub API mutations `configure_github_team` can issue. -/
inductive Action where
  | createTeam (name : String)
  | createRepo (name : String)
  | addRepoToTeam (repo team : String)
  | createHook (repo : String)
  | invite (user : String)
deriving DecidableEq

/-- The mutating API calls issued by `configure_github_team(team_name,
user_names)` after the interactive confirmation, given the organization
state: the team is created only when no team of that name exists; the
repository is created (already associated to the team via `team_id`) only
when no public repository of that name exists; when the repository exists
but the team is not among its teams, `org.add_repo(repo, team)` is issued;
a PivotalTracker hook is added when a PT token is available; finally each
user is invited. -/
def configure_github_team (team_name : String) (user_names : List String)
    (org : OrgState) (ptToken : Option String) : List Action :=
  (if org.teams.contains team_name then [] else [Action.createTeam team_name])
  ++
  (if org.publicRepos.contains team_name then
    (if (org.repoTeams team_name).contains team_name then []
     else [Action.addRepoToTeam team_name team_name])
   else [Action.createRepo team_name])
  ++
  (match ptToken with
   | some _ => [Action.createHook team_name]
   | none => [])
  ++ user_names.map Action.invite

end Github

/-! ## Token caches (`cs290.py` lines 421–461)

Files are modelled as `List Char`; `readline` and `strip` mirror the
Python file/str operations used by the two token helpers. -/

namespace Tokens

/-- The whitespace characters `str.strip()` removes. -/
def pyIsSpace (c : Char) : Bool :=
  c = ' ' ∨ c = '\t' ∨ c = '\n' ∨ c = '\x0d' ∨ c = '\x0b' ∨ c = '\x0c'

/-- Drop leading whitespace (`str.lstrip()`). -/
def lstrip : List Char → List Char
  | [] => []
  | c :: cs => if pyIsSpace c then lstrip cs else c :: cs

/-- `str.strip()`: drop leading and trailing whitespace. -/
def strip (s : List Char) : List Char :=
  (lstrip ((lstrip s).reverse)).reverse

/-- `fd.readline()`: the first line including its newline, and the rest of
the file. -/
def readline : List Char → List Char × List Char
  | [] => ([], [])
  | c :: cs =>
      if c = '\n' then ([c], cs)
      else
        let r := readline cs
        (c :: r.1, r.2)

/-- The file contents `get_github_token` writes on a fresh authorization:
`fd.write('{0}\n{1}\n'.format(auth.token, auth.id))`. -/
def githubCredsFile (token authId : List Char) : List Char :=
  token ++ '\n' :: (authId ++ ['\n'])

/-- The cached branch of `get_github_token`: when `~/.config/github_creds`
exists, read two lines, strip each, and return the pair. -/
def get_github_token_cached (file : List Char) : List Char × List Char :=
  let first := readline file
  let second := readline first.2
  (strip first.1, strip second.1)

/-- `get_pivotaltracker_token`: when `~/.config/pivotaltracker_token`
exists its stripped first line is the token; otherwise the stripped
interactive input is, and it is written back as `'{0}\n'.format(token)`
when nonempty. Returns `token if token else None` plus the file contents
after the call (`none` = no file). -/
def get_pivotaltracker_token (file : Option (List Char))
    (prompted : List Char) : Option (List Char) × Option (List Char) :=
  match file with
  | some f =>
      let token := strip (readline f).1
      (if token.isEmpty then none else some token, some f)
  | none =>
      let token := strip prompted
      if token.isEmpty then (none, none)
      else (some token, some (token ++ ['\n']))

end Tokens

/-! ## Team-name cleaning (`command_line.py` lines 22–29, `cs290.py`
lines 464–469) -/

namespace Teams

/-- `str.replace(' ', '-')`: replace every space character by a hyphen. -/
def replaceSpace (s : List Char) : List Char :=
  s.map (fun c => if c = ' ' then '-' else c)

/-- `clean_team_names` on a TEAM list argument:
`args['TEAM'][i] = item.strip().replace(' ', '-')` for each item. -/
def clean_team_names (teams : List (List Char)) : List (List Char) :=
  teams.map (fun item => replaceSpace (Tokens.strip item))

/-- The cleaning `cs290.py`'s `main` applies to a TEAM argument:
`args['TEAM'] = args['TEAM'].replace(' ', '-')` (no strip). -/
def cs290_clean_team (team : List Char) : List Char :=
  replaceSpace team

end Teams

/-! ## Class-attribute aliasing model for `CFTemplate.__init__`
(`cs290.py` lines 259–262, 274–314)

`self.template = copy.deepcopy(self.TEMPLATE)` makes the instance template
a separate heap object from the class-level `CFTemplate.TEMPLATE`. The
model tracks both objects plus an `aliased` flag recording whether they
are the same heap object: a plain `self.template = self.TEMPLATE`
assignment would set it, `copy.deepcopy` does not, and every mutation of
`self.template` writes through to the class template exactly when they
are aliased. -/

namespace Heap

/-- Heap view of one `CFTemplate` instance together with the class-level
`TEMPLATE` attribute. -/
structure State where
  classTemplate : List (String × Json)
  inst : CFTemplate.State
  aliased : Bool

/-- `CFTemplate.__init__` with `self.template = copy.deepcopy(TEMPLATE)`:
the instance template is a fresh copy, not an alias. -/
def init (app_ami : Option String) (memcached multi passenger : Bool) :
    State :=
  { classTemplate := CFTemplate.TEMPLATE
    inst := CFTemplate.init app_ami memcached multi passenger
    aliased := false }

/-- The template-mutating operations a `CFTemplate` instance exposes. -/
inductive Op where
  | addOutput (name description : String) (value : Json)
  | addParameter (name ptype : String)
      (allowed default description error_msg maxv minv : Option Json)
  | generate

/-- The pure template transformation each operation performs. -/
def Op.onTemplate (multi : Bool) :
    Op → List (String × Json) → List (String × Json)
  | Op.addOutput name description value =>
      CFTemplate.addOutputT name description value
  | Op.addParameter name ptype allowed default description error_msg maxv
      minv =>
      CFTemplate.addParameterT name ptype allowed default description
        error_msg maxv minv
  | Op.generate => CFTemplate.generateT multi

/-- Run one operation on the heap: it mutates `self.template`, and writes
through to `CFTemplate.TEMPLATE` exactly when the two are the same heap
object. -/
def step (s : State) (o : Op) : State :=
  { s with
    inst := { s.inst with
      template := o.onTemplate s.inst.multi s.inst.template }
    classTemplate :=
      if s.aliased then o.onTemplate s.inst.multi s.classTemplate
      else s.classTemplate }

/-- Run a sequence of operations. -/
def run (s : State) (ops : List Op) : State := ops.foldl step s

end Heap

/-! ## `generate_password` (`cs290.py` lines 415–418) -/

/-- `string.ascii_letters + string.digits`. -/
def ALPHA : List Char :=
  "abcdefghijklmnopqrstuvwxyzABCDEFGHIJKLMNOPQRSTUVWXYZ0123456789".toList

/-- `generate_password(length=16)`: one `random.choice(ALPHA)` per
position; the random outcomes are modelled by the oracle `choice`, which
yields for each position the index into `ALPHA` that `random.choice`
picks. -/
def generate_password (choice : Nat → Fin ALPHA.length)
    (length : Nat := 16) : List Char :=
  (List.range length).map (fun i => ALPHA.get (choice i))

end CS290

namespace CS290

/-! ## Theorems -/

/-- C1 (counterexample): the claim says each of the `multi`, `memcached`
and `passenger` flags toggles which static JSON fragments are included in
the serialized template, but `CFTemplate.generate` only reads
`self.multi`: flipping `memcached` and `passenger` (here from
`memcached=True, passenger=True` to `memcached=False, passenger=False`
with `multi=False`) leaves the generated template — and hence its JSON
serialization — unchanged. -/
theorem generate_ignores_memcached_passenger :
    (CFTemplate.generate (CFTemplate.init none true false true)).template =
    (CFTemplate.generate (CFTemplate.init none false false false)).template :=
  rfl

/-- C1 (amended): for every flag combination the generated template has
exactly the parameters `AppInstanceType`, `Branch`, `TeamName`, plus
`AppInstances` and `DBInstanceType` exactly when `multi` is set; the
`Mappings`/`Teams` entry is present exactly when `multi` is set; the `URL`
output joins `http://` with the `LoadBalancer.DNSName` attribute when
`multi` is set and with the `AppServer.PublicDnsName` attribute otherwise;
and only `multi` affects the template — `memcached` and `passenger` (and
`app_ami`) leave it unchanged. -/
theorem generate_template_spec (app_ami : Option String)
    (memcached multi passenger : Bool) :
    keysOf (getObj
        ((CFTemplate.generate
          (CFTemplate.init app_ami memcached multi passenger)).template)
        "Parameters") =
      (if multi then
        ["AppInstanceType", "Branch", "TeamName", "AppInstances",
         "DBInstanceType"]
       else ["AppInstanceType", "Branch", "TeamName"]) ∧
    getKey ((CFTemplate.generate
        (CFTemplate.init app_ami memcached multi passenger)).template)
        "Mappings" =
      (if multi then
        some (Json.obj [("Teams", Json.obj CFTemplate.TEAM_MAP)])
       else none) ∧
    getKey (getObj
        ((CFTemplate.generate
          (CFTemplate.init app_ami memcached multi passenger)).template)
        "Outputs") "URL" =
      some (Json.obj
        [("Description", Json.str "The URL to the rails application."),
         ("Value", CFTemplate.join ""
           [Json.str "http://",
            if multi then CFTemplate.get_att "LoadBalancer" "DNSName"
            else CFTemplate.get_att "AppServer" "PublicDnsName"])]) ∧
    (CFTemplate.generate
        (CFTemplate.init app_ami memcached multi passenger)).template =
      (CFTemplate.generate
        (CFTemplate.init app_ami false multi false)).template := by
  cases multi <;> cases memcached <;> cases passenger <;>
    exact ⟨rfl, rfl, rfl, rfl⟩

/-- C2: `AWS.op` issues the SDK call exactly once (no retry); on a 200
status it returns the response data and prints the success line with the
operation name and keyword arguments unless debug output is disabled; on
any other status it prints the error message carried in the response data
and returns `False`. -/
theorem aws_op_spec (call : String → String → AWS.Response)
    (operation kwargs : String) (debug_output : Bool) :
    (AWS.op call operation kwargs debug_output).1 = [operation] ∧
    (if (call operation kwargs).status_code = 200 then
      (AWS.op call operation kwargs debug_output).2 =
        ((if debug_output then [AWS.OutLine.success operation kwargs]
          else []),
         AWS.OpRet.data (call operation kwargs).data)
     else
      (AWS.op call operation kwargs debug_output).2 =
        ([AWS.OutLine.errMsg (AWS.errorMessage (call operation kwargs).data)],
         AWS.OpRet.failure)) := by
  constructor
  · by_cases h : (call operation kwargs).status_code = 200 <;>
      simp [AWS.op, h]
  · by_cases h : (call operation kwargs).status_code = 200 <;>
      simp [AWS.op, h]

/-- C10: for every requested length and every outcome of the random
choices, `generate_password` returns exactly `length` characters, each an
ASCII letter or decimal digit, and the default length is 16. -/
theorem generate_password_spec (length : Nat)
    (choice : Nat → Fin ALPHA.length) :
    (generate_password choice length).length = length ∧
    (generate_password choice length).all
      (fun c => c.isAlpha || c.isDigit) = true ∧
    (generate_password choice).length = 16 := by
  refine ⟨by simp [generate_password], ?_, by simp [generate_password]⟩
  rw [List.all_eq_true]
  intro c hc
  simp only [generate_password, List.mem_map, List.mem_range] at hc
  obtain ⟨i, -, rfl⟩ := hc
  have hmem : ALPHA.get (choice i) ∈ ALPHA := ALPHA.get_mem _ _
  have hall : ∀ c ∈ ALPHA, (c.isAlpha || c.isDigit) = true := by decide
  exact hall _ hmem

/-- Helper: the `cmd_aws`/`cmd_aws_purge` loop returns 0 when every team's
result is 0. -/
theorem cmd_aws_all_zero (f : String → Nat) (teams : List String)
    (h : ∀ t ∈ teams, f t = 0) : CommandLine.cmd_aws f teams = 0 := by
  induction teams with
  | nil => rfl
  | cons a rest ih =>
      have ha := h a (List.mem_cons_self a rest)
      simp only [CommandLine.cmd_aws, ha]
      simp only [ne_eq, not_true_eq_false, reduceIte]
      exact ih (fun t ht => h t (List.mem_cons_of_mem a ht))

/-- Helper: the `cmd_aws` loop stops at the first team with a nonzero
result and returns that value. -/
theorem cmd_aws_first (f : String → Nat) (pre : List String) (team : String)
    (post : List String) (hpre : ∀ t ∈ pre, f t = 0) (hteam : f team ≠ 0) :
    CommandLine.cmd_aws f (pre ++ team :: post) = f team := by
  induction pre with
  | nil => simp [CommandLine.cmd_aws, hteam]
  | cons a rest ih =>
      have ha := hpre a (List.mem_cons_self a rest)
      simp only [List.cons_append, CommandLine.cmd_aws, ha]
      simp [ha]
      exact ih (fun t ht => hpre t (List.mem_cons_of_mem a ht))

/-- C3: a failed call inside `AWS.configure` prints the response's error
message (the step is logged) while `configure` still runs to its
unconditional `return 0` — the call sequence always reaches the final
`PutUserPolicy` step regardless of which calls fail; and the `aws`
sub-command dispatcher `cmd_aws` stops at the first team whose `configure`
result is nonzero and returns that value. -/
theorem configure_failure_handling (createUserOk : Bool)
    (call : String → String → AWS.Response) (operation kwargs : String)
    (debug_output : Bool) (f : String → Nat) (pre post : List String)
    (team : String) :
    (AWS.configure createUserOk).2 = 0 ∧
    (AWS.configureCalls createUserOk).getLast? = some "PutUserPolicy" ∧
    ((call operation kwargs).status_code ≠ 200 →
      (AWS.op call operation kwargs debug_output).2.1 =
        [AWS.OutLine.errMsg
          (AWS.errorMessage (call operation kwargs).data)]) ∧
    ((∀ t ∈ pre, f t = 0) → f team ≠ 0 →
      CommandLine.cmd_aws f (pre ++ team :: post) = f team) := by
  refine ⟨rfl, ?_, ?_, cmd_aws_first f pre team post⟩
  · cases createUserOk <;> rfl
  · intro h
    simp [AWS.op, h]

/-- C3 witness: with team "a" succeeding and team "b" failing with exit
value 3, `cmd_aws` over ["a", "b", "c"] returns 3, and `configure` returns
0 while ending at `PutUserPolicy`. -/
theorem configure_failure_handling_witness :
    (AWS.configure true).2 = 0 ∧
    (AWS.configureCalls true).getLast? = some "PutUserPolicy" ∧
    CommandLine.cmd_aws (fun t => if t = "b" then 3 else 0)
      (["a"] ++ "b" :: ["c"]) = 3 := by
  have h := configure_failure_handling true
    (fun _ _ => ⟨200, Json.obj []⟩) "CreateUser" "kw" true
    (fun t => if t = "b" then 3 else 0) ["a"] ["c"] "b"
  refine ⟨h.1, h.2.1, ?_⟩
  have := h.2.2.2 (by intro t ht; fin_cases ht; rfl) (by decide)
  simpa using this

/-- C4 (counterexample): the claim says `configure` and `purge` each issue
exactly one cloud API call, but `configure` with a successful `CreateUser`
issues 13 calls and `purge` with an empty access-key listing issues 7. -/
theorem facade_single_call_counterexample :
    (AWS.configureCalls true).length ≠ 1 ∧
    (AWS.purgeCalls (some [])).length ≠ 1 := by decide

/-- C4 (amended): `configure` issues 13 API calls (10 when `CreateUser`
fails, which skips the login-profile/access-key/key-pair block), `purge`
issues 7 plus one `DeleteAccessKey` per listed access key (7 when
`ListAccessKeys` fails), `cleanup` issues one `ListStacks` plus one
`DeleteStack` per live stack older than 8 hours, and
`list_security_groups` issues exactly one call; each call goes through
`AWS.op`, which prints its success or failure. -/
theorem facade_call_counts (createUserOk : Bool) (keys : List String)
    (now : Int) (stackList : List AWS.StackSummary) :
    (AWS.configureCalls createUserOk).length =
      (if createUserOk then 13 else 10) ∧
    (AWS.purgeCalls (some keys)).length = 7 + keys.length ∧
    (AWS.purgeCalls none).length = 7 ∧
    (AWS.cleanupCalls now stackList).length =
      1 + (stackList.filter (fun s =>
        s.status ≠ "DELETE_COMPLETE" ∧ now - s.creationTime > 8 * 3600)
      ).length ∧
    AWS.listSecurityGroupsCalls.length = 1 := by
  refine ⟨?_, ?_, rfl, ?_, rfl⟩
  · cases createUserOk <;> rfl
  · simp [AWS.purgeCalls]
    omega
  · simp [AWS.cleanupCalls]
    omega

/-- Helper: the `cftemplate-update-all` loop returns 0 when every
generation succeeds. -/
theorem update_all_loop_all_zero (g : Nat → Nat) (l : List Nat)
    (h : ∀ i ∈ l, g i = 0) : CommandLine.update_all_loop g l = 0 := by
  induction l with
  | nil => rfl
  | cons a rest ih =>
      have ha := h a (List.mem_cons_self a rest)
      simp only [CommandLine.update_all_loop, ha]
      simp [ha]
      exact ih (fun t ht => h t (List.mem_cons_of_mem a ht))

/-- C6: `cmd_cftemplate_update_all` covers all 8 combinations of the
memcached, puma and multi flags (memcached from bit 0, puma from bit 1,
multi from bit 2 of the loop index), returns 0 when every generation
succeeds, and otherwise returns the result of the first failing
generation. -/
theorem cftemplate_update_all_spec
    (generateStack : Bool → Bool → Bool → Nat) :
    (∀ m p mu : Bool, ∃ i ∈ List.range 8,
      CommandLine.flagsOf i = (m, p, mu)) ∧
    ((∀ i ∈ List.range 8, CommandLine.genAt generateStack i = 0) →
      CommandLine.cmd_cftemplate_update_all generateStack = 0) ∧
    (∀ j ∈ List.range 8,
      (∀ i ∈ List.range j, CommandLine.genAt generateStack i = 0) →
      CommandLine.genAt generateStack j ≠ 0 →
      CommandLine.cmd_cftemplate_update_all generateStack =
        CommandLine.genAt generateStack j) := by
  refine ⟨by decide, ?_, ?_⟩
  · exact update_all_loop_all_zero _ _
  · intro j hj h0 hj0
    rw [List.mem_range] at hj
    interval_cases j <;>
      simp_all [CommandLine.cmd_cftemplate_update_all,
        CommandLine.update_all_loop,
        show List.range 8 = [0, 1, 2, 3, 4, 5, 6, 7] from rfl]

/-- C6 witness: with a `generate_stack` that fails with 5 exactly when
`multi` is set, the first failing index is 4 (flags (false, false, true))
and the dispatcher returns 5. -/
theorem cftemplate_update_all_spec_witness :
    CommandLine.cmd_cftemplate_update_all
      (fun _ _ mu => if mu then 5 else 0) = 5 := by
  have h := (cftemplate_update_all_spec
    (fun _ _ mu => if mu then 5 else 0)).2.2 4 (by decide)
    (by decide) (by decide)
  simpa using h

/-- Helper: an `invite` action never equals a team/repo mutation, so the
user-invitation suffix contributes no `createTeam`, `createRepo` or
`addRepoToTeam` occurrences. -/
theorem invite_map_count (user_names : List String) (a : Github.Action)
    (h : ∀ u, Github.Action.invite u ≠ a) :
    (user_names.map Github.Action.invite).count a = 0 := by
  rw [List.count_eq_zero]
  intro hmem
  rw [List.mem_map] at hmem
  obtain ⟨u, -, hu⟩ := hmem
  exact h u hu

/-- C5: `configure_github_team` creates the team exactly when no team of
that name exists in the organization, creates the repository exactly when
no public repository of that name exists, adds the repository to the team
exactly when the repository exists but the team is not among its teams,
and each of these three mutations is issued at most once (a single API
call guarded by its existence check). -/
theorem configure_github_team_spec (team_name : String)
    (user_names : List String) (org : Github.OrgState)
    (ptToken : Option String) :
    (Github.Action.createTeam team_name ∈
        Github.configure_github_team team_name user_names org ptToken ↔
      org.teams.contains team_name = false) ∧
    (Github.Action.createRepo team_name ∈
        Github.configure_github_team team_name user_names org ptToken ↔
      org.publicRepos.contains team_name = false) ∧
    (Github.Action.addRepoToTeam team_name team_name ∈
        Github.configure_github_team team_name user_names org ptToken ↔
      (org.publicRepos.contains team_name = true ∧
       (org.repoTeams team_name).contains team_name = false)) ∧
    (Github.configure_github_team team_name user_names org ptToken).count
      (Github.Action.createTeam team_name) ≤ 1 ∧
    (Github.configure_github_team team_name user_names org ptToken).count
      (Github.Action.createRepo team_name) ≤ 1 ∧
    (Github.configure_github_team team_name user_names org ptToken).count
      (Github.Action.addRepoToTeam team_name team_name) ≤ 1 := by
  have hT := invite_map_count user_names
    (Github.Action.createTeam team_name) (by intro u; simp)
  have hR := invite_map_count user_names
    (Github.Action.createRepo team_name) (by intro u; simp)
  have hA := invite_map_count user_names
    (Github.Action.addRepoToTeam team_name team_name) (by intro u; simp)
  cases h1 : org.teams.contains team_name <;>
    cases h2 : org.publicRepos.contains team_name <;>
      cases h3 : (org.repoTeams team_name).contains team_name <;>
        cases ptToken <;>
          (simp at h1 h2 h3
           simp [Github.configure_github_team, h1, h2, h3,
             List.count_append, List.count_cons, List.count_nil, hT, hR, hA])

/-- Helper: `readline` on a newline-free prefix followed by a newline
returns that line (newline included) and the remainder of the file. -/
theorem readline_append (t rest : List Char) (h : '\n' ∉ t) :
    Tokens.readline (t ++ '\n' :: rest) = (t ++ ['\n'], rest) := by
  induction t with
  | nil => simp [Tokens.readline]
  | cons c cs ih =>
      have hc : c ≠ '\n' := fun e => h (e ▸ List.mem_cons_self c cs)
      have hcs : '\n' ∉ cs := fun hm => h (List.mem_cons_of_mem c hm)
      simp [Tokens.readline, hc, ih hcs]

/-- Helper: `lstrip` never lengthens a string. -/
theorem lstrip_length_le (s : List Char) :
    (Tokens.lstrip s).length ≤ s.length := by
  induction s with
  | nil => simp [Tokens.lstrip]
  | cons c cs ih =>
      by_cases h : Tokens.pyIsSpace c
      · rw [show Tokens.lstrip (c :: cs) = Tokens.lstrip cs from by
          simp [Tokens.lstrip, h]]
        exact le_trans ih (by simp)
      · simp [Tokens.lstrip, h]

/-- Helper: a nonempty `lstrip` fixed point starts with a non-whitespace
character. -/
theorem head_not_space_of_lstrip_fix (c : Char) (cs : List Char)
    (h : Tokens.lstrip (c :: cs) = c :: cs) : Tokens.pyIsSpace c = false := by
  by_cases hc : Tokens.pyIsSpace c
  · exfalso
    rw [show Tokens.lstrip (c :: cs) = Tokens.lstrip cs by
      simp [Tokens.lstrip, hc]] at h
    have := lstrip_length_le cs
    have := congrArg List.length h
    simp at this
    omega
  · simpa using hc

/-- Helper: stripping a line read back from the cache (token plus its
terminating newline) recovers a token with no surrounding whitespace. -/
theorem strip_append_newline (t : List Char) (h1 : Tokens.lstrip t = t)
    (h2 : Tokens.lstrip t.reverse = t.reverse) :
    Tokens.strip (t ++ ['\n']) = t := by
  cases t with
  | nil => rfl
  | cons c cs =>
      have hc : Tokens.pyIsSpace c = false :=
        head_not_space_of_lstrip_fix c cs h1
      have e1 : Tokens.lstrip ((c :: cs) ++ ['\n']) = (c :: cs) ++ ['\n'] := by
        simp [Tokens.lstrip, hc]
      have e2 : Tokens.lstrip ('\n' :: (c :: cs).reverse) =
          Tokens.lstrip ((c :: cs).reverse) := by
        simp [Tokens.lstrip, Tokens.pyIsSpace]
      have e3 : ((c :: cs) ++ ['\n']).reverse = '\n' :: (c :: cs).reverse := by
        simp
      unfold Tokens.strip
      rw [e1, e3, e2, h2, List.reverse_reverse]

/-- Helper: a string with no surrounding whitespace is a `strip` fixed
point. -/
theorem strip_eq_self (t : List Char) (h1 : Tokens.lstrip t = t)
    (h2 : Tokens.lstrip t.reverse = t.reverse) : Tokens.strip t = t := by
  unfold Tokens.strip
  rw [h1, h2, List.reverse_reverse]

/-- C7: the GitHub credential cache write-then-read round trip returns
exactly the (token, authorization id) pair that was written, for
single-line tokens without surrounding whitespace; the PivotalTracker
helper stores a freshly prompted nonempty token as a single
newline-terminated line, returns the cached first line whenever the file
exists, and returns `None` when the (stripped) token is empty. -/
theorem token_cache_roundtrip (token authId ptTok rest : List Char)
    (hTn : '\n' ∉ token) (hT1 : Tokens.lstrip token = token)
    (hT2 : Tokens.lstrip token.reverse = token.reverse)
    (hIn : '\n' ∉ authId) (hI1 : Tokens.lstrip authId = authId)
    (hI2 : Tokens.lstrip authId.reverse = authId.reverse)
    (hPn : '\n' ∉ ptTok) (hP1 : Tokens.lstrip ptTok = ptTok)
    (hP2 : Tokens.lstrip ptTok.reverse = ptTok.reverse)
    (hPne : ptTok ≠ []) :
    Tokens.get_github_token_cached (Tokens.githubCredsFile token authId) =
      (token, authId) ∧
    Tokens.get_pivotaltracker_token none ptTok =
      (some ptTok, some (ptTok ++ ['\n'])) ∧
    Tokens.get_pivotaltracker_token (some (ptTok ++ '\n' :: rest)) [] =
      (some ptTok, some (ptTok ++ '\n' :: rest)) ∧
    (∀ f p, Tokens.strip (Tokens.readline f).1 = [] →
      (Tokens.get_pivotaltracker_token (some f) p).1 = none) ∧
    (∀ p, Tokens.strip p = [] →
      Tokens.get_pivotaltracker_token none p = (none, none)) := by
  have hstrip := strip_append_newline token hT1 hT2
  have histrip := strip_append_newline authId hI1 hI2
  have hpstrip := strip_append_newline ptTok hP1 hP2
  refine ⟨?_, ?_, ?_, ?_, ?_⟩
  · simp only [Tokens.get_github_token_cached, Tokens.githubCredsFile,
      readline_append token (authId ++ ['\n']) hTn,
      readline_append authId [] hIn]
    simp [hstrip, histrip]
  · simp only [Tokens.get_pivotaltracker_token,
      strip_eq_self ptTok hP1 hP2]
    simp [hPne]
  · simp only [Tokens.get_pivotaltracker_token,
      readline_append ptTok rest hPn, hpstrip]
    simp [hPne]
  · intro f p h
    simp [Tokens.get_pivotaltracker_token, h]
  · intro p h
    simp [Tokens.get_pivotaltracker_token, h]

/-- C7 witness: the round trip evaluated at token "ab", authorization id
"1" and PivotalTracker token "t". -/
theorem token_cache_roundtrip_witness :
    Tokens.get_github_token_cached
        (Tokens.githubCredsFile ['a', 'b'] ['1']) = (['a', 'b'], ['1']) ∧
    Tokens.get_pivotaltracker_token none ['t'] =
      (some ['t'], some ['t', '\n']) := by
  have h := token_cache_roundtrip ['a', 'b'] ['1'] ['t'] []
    (by decide) (by decide) (by decide) (by decide) (by decide) (by decide)
    (by decide) (by decide) (by decide) (by decide)
  exact ⟨h.1, h.2.1⟩

/-- C8: after the dispatchers' team-name cleaning — `strip()` plus
`replace(' ', '-')` in `scalable_admin`'s `clean_team_names`, and
`replace(' ', '-')` alone in `cs290.py`'s `main` — no cleaned TEAM
argument contains a space character, so no façade operation receives a
team name with a space. -/
theorem team_names_no_space (team : List Char) (teams : List (List Char)) :
    ' ' ∉ Teams.cs290_clean_team team ∧
    ∀ t ∈ Teams.clean_team_names teams, ' ' ∉ t := by
  have key : ∀ s : List Char, ' ' ∉ Teams.replaceSpace s := by
    intro s hmem
    simp only [Teams.replaceSpace, List.mem_map] at hmem
    obtain ⟨c, -, hc⟩ := hmem
    by_cases h : c = ' '
    · rw [if_pos h] at hc
      exact absurd hc (by decide)
    · rw [if_neg h] at hc
      exact h hc
  refine ⟨key team, ?_⟩
  intro t ht
  simp only [Teams.clean_team_names, List.mem_map] at ht
  obtain ⟨s, -, rfl⟩ := ht
  exact key _

/-- C8 witness: cleaning " a b " leaves no space, under either
dispatcher's cleaning. -/
theorem team_names_no_space_witness :
    ' ' ∉ Teams.cs290_clean_team [' ', 'a', ' ', 'b', ' '] :=
  (team_names_no_space [' ', 'a', ' ', 'b', ' '] []).1

/-- Helper: running template operations on a non-aliased instance never
touches the class-level template and never creates aliasing. -/
theorem heap_run_invariant (s : Heap.State) (ops : List Heap.Op)
    (h : s.aliased = false) :
    (Heap.run s ops).classTemplate = s.classTemplate ∧
    (Heap.run s ops).aliased = false := by
  induction ops generalizing s with
  | nil => exact ⟨rfl, h⟩
  | cons o rest ih =>
      have h1 : (Heap.step s o).aliased = false := h
      have h2 : (Heap.step s o).classTemplate = s.classTemplate := by
        simp [Heap.step, h]
      have hrec := ih (Heap.step s o) h1
      exact ⟨hrec.1.trans h2, hrec.2⟩

/-- C9: because `__init__` deep-copies the class-level `TEMPLATE`, every
sequence of `add_parameter`/`add_output`/`generate` operations on an
instance leaves the shared `CFTemplate.TEMPLATE` mapping unchanged (empty
`Outputs`, `Parameters` and `Resources`), and every newly constructed
instance starts from the pristine template. -/
theorem template_deepcopy_frame (app_ami : Option String)
    (memcached multi passenger : Bool) (ops : List Heap.Op) :
    (Heap.run (Heap.init app_ami memcached multi passenger) ops
      ).classTemplate = CFTemplate.TEMPLATE ∧
    (Heap.init app_ami memcached multi passenger).inst.template =
      CFTemplate.TEMPLATE := by
  refine ⟨?_, rfl⟩
  exact (heap_run_invariant
    (Heap.init app_ami memcached multi passenger) ops rfl).1

end CS290
